import Mathlib

/-!
Shallow embedding of the Inspired catalog API server (src/index.js).

The server is a read-only catalog API: `getGoodsList` filters, searches and
paginates an in-memory goods list, `getItems` looks an item up by id, and a
hand-rolled HTTP handler routes requests and formats errors.

Modelling conventions:
* JS strings are Lean `String`s; all string manipulation is done on `List Char`
  (via `String.toList` / `List.asString`) so that every definition evaluates
  inside the kernel.  `Char.toLower` mirrors `toLowerCase` on the ASCII range
  (the only range the catalog data and the claims exercise).
* A query parameter that is absent from the query string is `none`; JS
  truthiness of a parameter string (`if (params.x)`) is `truthy`: present and
  nonempty.
* JS numbers appear only as the `page` / `count` pagination arguments; the code
  coerces them from decimal strings (`+params.page || 1`), so they are modelled
  as `Int` via `jsToInt?`.  Fractional and hexadecimal numeric strings, and a
  NaN page size (non-numeric `count` string), are outside the modelled domain:
  no claim exercises them.
* `Math.random()`-driven shuffling is modelled by threading an explicit stream
  of random draws `rand : (i : Nat) → Fin (i + 1)`; `rand i` is
  `Math.floor(Math.random() * (i + 1))`, which always lies in `[0, i]`.
* Exceptions (`throw new ApiError ...`) are modelled with `Except ApiError`.
-/

/-- One catalog entry, with exactly the fields the server's code reads
(`db.json` supplies more display fields; they are opaque to the logic). -/
structure Item where
  id : String
  title : String
  description : String
  category : String
  gender : String
  type : String
  top : Bool
deriving DecidableEq, Repr, Inhabited

/-- The application error thrown by the handlers (`class ApiError`): a status
code plus a data payload, which in this program is always of the shape
`\x7bmessage: ...\x7d`, modelled by its `message` string. -/
structure ApiError where
  statusCode : Nat
  message : String
deriving DecidableEq, Repr

/-- The object returned by `pagination`. -/
structure PageResult where
  goods : List Item
  page : Int
  pages : Int
  totalCount : Nat
deriving DecidableEq, Repr

/-- The three result shapes of `getGoodsList`: the `top` branch (a JS array
whose length was forced to 8, so it may contain holes, serialized as `null`),
the `list` branch (a plain filtered array) and the default paginated object. -/
inductive GoodsResult where
  | top (items : List (Option Item))
  | raw (items : List Item)
  | paged (r : PageResult)
deriving DecidableEq, Repr

/-- Decoded query parameters, as read by `getGoodsList`.  A field is `none`
when the key is absent from the query string; present keys hold the decoded
(possibly empty) string value. -/
structure Params where
  top : Option String := none
  gender : Option String := none
  category : Option String := none
  type : Option String := none
  search : Option String := none
  list : Option String := none
  page : Option String := none
  count : Option String := none
deriving DecidableEq, Repr

/-- JS truthiness of a possibly-absent query-parameter string: `undefined` and
the empty string are falsy, every other string is truthy. -/
def truthy : Option String → Bool
  | none => false
  | some s => s ≠ ""

instance {ε α : Type} [DecidableEq ε] [DecidableEq α] : DecidableEq (Except ε α) := fun a b =>
  match a, b with
  | Except.ok x, Except.ok y =>
      if h : x = y then Decidable.isTrue (by rw [h])
      else Decidable.isFalse (fun hc => h (Except.ok.inj hc))
  | Except.error x, Except.error y =>
      if h : x = y then Decidable.isTrue (by rw [h])
      else Decidable.isFalse (fun hc => h (Except.error.inj hc))
  | Except.ok _, Except.error _ => Decidable.isFalse (fun hc => Except.noConfusion hc)
  | Except.error _, Except.ok _ => Decidable.isFalse (fun hc => Except.noConfusion hc)

/-- Leading-match test on character lists: the first argument occurs verbatim
at the head of the second. -/
def leadMatch : List Char → List Char → Bool
  | [], _ => true
  | _ :: _, [] => false
  | a :: as, b :: bs => a == b && leadMatch as bs

/-- Occurrence of `pat` as a contiguous run inside `l` (JS
`String.prototype.includes`, on character lists). -/
def occursIn (pat : List Char) : List Char → Bool
  | [] => pat.isEmpty
  | b :: bs => leadMatch pat (b :: bs) || occursIn pat bs

/-- JS `s.includes(sub)`. -/
def strIncludes (s sub : String) : Bool :=
  occursIn sub.toList s.toList

/-- JS `s.startsWith(p)`. -/
def strStartsWith (s p : String) : Bool :=
  leadMatch p.toList s.toList

/-- JS `s.toLowerCase()` on the ASCII range (`Char.toLower` lowers exactly the
characters A-Z, which is all the catalog data and claims exercise). -/
def jsToLowerCase (s : String) : String :=
  (s.toList.map Char.toLower).asString

/-- JS `s.trim()`: strip whitespace from both ends. -/
def jsTrim (s : String) : String :=
  (((s.toList.dropWhile Char.isWhitespace).reverse.dropWhile Char.isWhitespace).reverse).asString

/-- Value of an unsigned decimal digit string. -/
def digitsVal (l : List Char) : Nat :=
  l.foldl (fun acc c => 10 * acc + (c.toNat - '0'.toNat)) 0

/-- JS numeric coercion `+s` restricted to the strings this API meets: after
trimming, the empty string coerces to 0 and an optional-sign decimal integer
to its value; everything else (fractional, exponent or hex forms included —
no claim exercises them) is NaN, returned as `none`. -/
def jsToInt? (s : String) : Option Int :=
  let t := (jsTrim s).toList
  if t.isEmpty then some 0
  else
    let p : Int × List Char :=
      match t with
      | '-' :: rest => (-1, rest)
      | '+' :: rest => (1, rest)
      | _ => (1, t)
    if p.2 ≠ [] ∧ p.2.all Char.isDigit then some (p.1 * digitsVal p.2) else none

/-- The page number `+params.page || 1` of `getGoodsList`: NaN (undefined or
non-numeric) and 0 are falsy and default to 1. -/
def jsPage (o : Option String) : Int :=
  match o with
  | none => 1
  | some s =>
    match jsToInt? s with
    | some n => if n = 0 then 1 else n
    | none => 1

/-- The page size `params.count || 12` of `getGoodsList`: an absent or empty
string defaults to 12, otherwise the string is kept and coerced to a number at
its use sites.  A non-numeric string would give NaN (outside the modelled
domain, no claim exercises it; mapped to 0 here). -/
def jsCount (o : Option String) : Int :=
  match o with
  | none => 12
  | some s => if s = "" then 12 else (jsToInt? s).getD 0

/-- Clamp one boundary index of `Array.prototype.slice`: a negative index
counts from the end (clamped at 0), a nonnegative one is clamped at `len`. -/
def jsSliceIdx (len : Nat) (i : Int) : Nat :=
  if i < 0 then ((len : Int) + i).toNat else min i.toNat len

/-- JS `data.slice(s, e)`: the elements from the clamped start index
(inclusive) to the clamped end index (exclusive), empty when start ≥ end. -/
def jsSlice {α : Type} (l : List α) (s e : Int) : List α :=
  (l.take (jsSliceIdx l.length e)).drop (jsSliceIdx l.length s)

/-- The `pagination` helper: `end = count * page`,
`start = page === 1 ? 0 : end - count`, `pages = Math.ceil(length / count)`
(modelled for a positive page size, the only regime the program's defaults and
the claims produce; JS float ceiling at nonpositive `count` is outside the
modelled domain). -/
def pagination (data : List Item) (page count : Int) : PageResult :=
  let e := count * page
  let s := if page = 1 then 0 else e - count
  let totalCount := data.length
  let pages : Int := if 0 < count then ((totalCount : Int) + count - 1) / count else 0
  { goods := jsSlice data s e, page := page, pages := pages, totalCount := totalCount }

/-- JS destructuring swap `[a[i], a[j]] = [a[j], a[i]]` on a list, a no-op on
out-of-range indices (never reached by the shuffle loop). -/
def listSwap {α : Type} (l : List α) (i j : Nat) : List α :=
  match l[i]?, l[j]? with
  | some x, some y => (l.set i y).set j x
  | _, _ => l

/-- The Fisher-Yates loop of `shuffle`: for `i` from its first argument down
to 1, swap positions `i` and `rand i` (the draw
`Math.floor(Math.random() * (i + 1))`). -/
def fyLoop {α : Type} (rand : (i : Nat) → Fin (i + 1)) : Nat → List α → List α
  | 0, l => l
  | i + 1, l => fyLoop rand i (listSwap l (i + 1) (rand (i + 1)).val)

/-- The `shuffle` helper: copy the array and run the Fisher-Yates loop from
index `length - 1` down to 1, with the random draws supplied by `rand`. -/
def shuffle {α : Type} (rand : (i : Nat) → Fin (i + 1)) (l : List α) : List α :=
  fyLoop rand (l.length - 1) l

/-- JS `arr.length = n`: truncate to the first `n` entries or extend with
holes (`undefined`, serialized as `null`) up to length `n`. -/
def jsSetLength {α : Type} (n : Nat) (l : List α) : List (Option α) :=
  (l.map some ++ List.replicate n none).take n

/-- The predicate of the `top` branch filter:
`item.top && item.gender === params.top`. -/
def topPred (t : String) (item : Item) : Bool :=
  item.top && item.gender == t

/-- The predicate of the `search` branch filter, `search` already trimmed and
lowercased: `item.title.toLowerCase().includes(search) ||
item.description.toLowerCase().includes(search)`. -/
def searchPred (search : String) (item : Item) : Bool :=
  strIncludes (jsToLowerCase item.title) search ||
    strIncludes (jsToLowerCase item.description) search

/-- The predicate of the `list` branch filter, `list` already trimmed and
lowercased: `list.includes(item.id)` — substring containment of the raw item
id in the normalized list string. -/
def listPred (list : String) (item : Item) : Bool :=
  strIncludes list item.id

/-- The `getGoodsList` handler over the goods list of the loaded catalog.
Branches in source order: `top` (filter + shuffle + force length 8, returned
raw), then in sequence the `gender` filter, the `category` filter (403
`Not gender params` when `category` is truthy and `gender` is not), the
`type` filter, the `search` refilter of the original catalog, the `list`
early return, and finally `pagination`. -/
def getGoodsList (goods : List Item) (rand : (i : Nat) → Fin (i + 1))
    (params : Params) : Except ApiError GoodsResult :=
  let page := jsPage params.page
  let count := jsCount params.count
  if truthy params.top then
    Except.ok (GoodsResult.top (jsSetLength 8
      (shuffle rand (goods.filter (topPred (params.top.getD ""))))))
  else
    let data := if truthy params.gender
      then goods.filter (fun item => item.gender == params.gender.getD "")
      else goods
    let rest := fun (data : List Item) =>
      let data := if truthy params.type
        then data.filter (fun item => item.type == params.type.getD "")
        else data
      let data := if truthy params.search
        then goods.filter (searchPred (jsToLowerCase (jsTrim (params.search.getD ""))))
        else data
      if truthy params.list then
        Except.ok (GoodsResult.raw
          (goods.filter (listPred (jsToLowerCase (jsTrim (params.list.getD ""))))))
      else
        Except.ok (GoodsResult.paged (pagination data page count))
    if truthy params.category then
      if truthy params.gender then
        rest (data.filter (fun item => item.category == params.category.getD ""))
      else
        Except.error ⟨403, "Not gender params"⟩
    else
      rest data

/-- The `getItems` handler: find the first item whose id equals `itemId`, or
throw the 404 `Item Not Found` error. -/
def getItems (goods : List Item) (itemId : String) : Except ApiError Item :=
  match goods.find? (fun item => item.id == itemId) with
  | some item => Except.ok item
  | none => Except.error ⟨404, "Item Not Found"⟩

/-- A concrete random stream (all draws 0), used to instantiate theorems. -/
def rand0 : (i : Nat) → Fin (i + 1) := fun i => ⟨0, Nat.zero_lt_succ i⟩

/-- A second concrete random stream (all draws maximal). -/
def rand1 : (i : Nat) → Fin (i + 1) := fun i => ⟨i, Nat.lt_succ_self i⟩

/-! ### Sample catalog data, used to instantiate theorems -/

/-- A sample item: a women's dress, not in the top selection. -/
def itmA : Item := ⟨"1", "Apple shirt", "red cotton", "dress", "women", "casual", false⟩

/-- A sample item: a men's dress in the top selection. -/
def itmB : Item := ⟨"2", "Banana top", "yellow Shirt", "dress", "men", "casual", true⟩

/-- A sample item: a men's hat in the top selection. -/
def itmC : Item := ⟨"3", "Cherry hat", "small", "hat", "men", "casual", true⟩

/-- A three-item sample catalog. -/
def sampleGoods : List Item := [itmA, itmB, itmC]

/-- Builder of male top items with a given id, for catalogs with many
top items. -/
def topItem (s : String) : Item := ⟨s, "Top", "d", "c", "men", "t", true⟩

/-- A nine-item catalog in which all items match the top filter for "men". -/
def manyTop : List Item :=
  [topItem "a", topItem "b", topItem "c", topItem "d", topItem "e",
   topItem "f", topItem "g", topItem "h", topItem "i"]

/-! ### Permutation facts about the Fisher-Yates shuffle -/

/-- Placing a list element at the head in exchange for a new value keeps the
multiset of elements: `y :: t.set k a` is a permutation of `a :: t` whenever
position `k` of `t` holds `y`. -/
theorem cons_set_perm {α : Type} (a y : α) :
    ∀ (t : List α) (k : Nat), t[k]? = some y → (y :: t.set k a).Perm (a :: t) := by
  intro t
  induction t with
  | nil => intro k h; simp at h
  | cons c t ih =>
    intro k h
    cases k with
    | zero =>
      rw [List.getElem?_cons_zero, Option.some.injEq] at h
      subst h
      exact List.Perm.swap a c t
    | succ k =>
      rw [List.getElem?_cons_succ] at h
      show (y :: c :: t.set k a).Perm (a :: c :: t)
      exact ((List.Perm.swap c y _).trans ((ih k h).cons c)).trans (List.Perm.swap a c t)

/-- Exchanging the values at two in-range positions is a permutation. -/
theorem set_set_perm {α : Type} :
    ∀ (l : List α) (i j : Nat) (x y : α),
      l[i]? = some x → l[j]? = some y → ((l.set i y).set j x).Perm l := by
  intro l
  induction l with
  | nil => intro i j x y h _; simp at h
  | cons a t ih =>
    intro i j x y hi hj
    cases i with
    | zero =>
      rw [List.getElem?_cons_zero, Option.some.injEq] at hi
      subst hi
      cases j with
      | zero =>
        rw [List.getElem?_cons_zero, Option.some.injEq] at hj
        subst hj
        show ((a :: t).set 0 a).Perm (a :: t)
        exact List.Perm.refl _
      | succ j =>
        rw [List.getElem?_cons_succ] at hj
        show (y :: t.set j a).Perm (a :: t)
        exact cons_set_perm a y t j hj
    | succ i =>
      rw [List.getElem?_cons_succ] at hi
      cases j with
      | zero =>
        rw [List.getElem?_cons_zero, Option.some.injEq] at hj
        subst hj
        show (x :: t.set i a).Perm (a :: t)
        exact cons_set_perm a x t i hi
      | succ j =>
        rw [List.getElem?_cons_succ] at hj
        show (a :: (t.set i y).set j x).Perm (a :: t)
        exact (ih i j x y hi hj).cons a

/-- The JS destructuring swap is a permutation. -/
theorem listSwap_perm {α : Type} (l : List α) (i j : Nat) : (listSwap l i j).Perm l := by
  cases hi : l[i]? with
  | none => simp [listSwap, hi]
  | some x =>
    cases hj : l[j]? with
    | none => simp [listSwap, hi, hj]
    | some y =>
      simpa [listSwap, hi, hj] using set_set_perm l i j x y hi hj

/-- The Fisher-Yates loop is a permutation. -/
theorem fyLoop_perm {α : Type} (rand : (i : Nat) → Fin (i + 1)) :
    ∀ (n : Nat) (l : List α), (fyLoop rand n l).Perm l := by
  intro n
  induction n with
  | zero => intro l; exact List.Perm.refl l
  | succ n ih => intro l; exact (ih _).trans (listSwap_perm l (n + 1) _)

/-- `shuffle` returns a permutation of its input, for every random stream. -/
theorem shuffle_perm {α : Type} (rand : (i : Nat) → Fin (i + 1)) (l : List α) :
    (shuffle rand l).Perm l :=
  fyLoop_perm rand _ l

/-- `shuffle` preserves length. -/
theorem shuffle_length {α : Type} (rand : (i : Nat) → Fin (i + 1)) (l : List α) :
    (shuffle rand l).length = l.length :=
  (shuffle_perm rand l).length_eq

/-! ### Facts about the forced array length `jsSetLength` -/

/-- Forcing the length really forces the length. -/
theorem jsSetLength_length {α : Type} (n : Nat) (l : List α) : (jsSetLength n l).length = n := by
  simp [jsSetLength]

/-- On a list that is long enough, forcing the length truncates. -/
theorem jsSetLength_of_le {α : Type} (n : Nat) (l : List α) (h : n ≤ l.length) :
    jsSetLength n l = (l.take n).map some := by
  unfold jsSetLength
  rw [List.take_append_of_le_length (by simpa using h), List.map_take]

/-- On a list that is too short, forcing the length pads with holes. -/
theorem jsSetLength_of_lt {α : Type} (n : Nat) (l : List α) (h : l.length < n) :
    jsSetLength n l = l.map some ++ List.replicate (n - l.length) none := by
  unfold jsSetLength
  have hlm : (l.map some).length = l.length := List.length_map l some
  have hn : n = (l.map some).length + (n - l.length) := by omega
  rw [hn, List.take_append, List.take_replicate]
  congr 2
  omega

/-! ### Claim C10: determinism away from the top branch -/

/-- C10: for every catalog and every params in which top is absent (falsy),
getGoodsList is deterministic: two evaluations with the same catalog and the
same params produce identical results for any two random streams, because the
shuffle is reached only on the top branch. -/
theorem non_top_deterministic (goods : List Item) (params : Params)
    (r1 r2 : (i : Nat) → Fin (i + 1)) (h : truthy params.top = false) :
    getGoodsList goods r1 params = getGoodsList goods r2 params := by
  simp only [getGoodsList, h, Bool.false_eq_true, if_false]

/-- Witness for C10 at a concrete catalog, params and random streams. -/
theorem non_top_deterministic_witness :
    getGoodsList sampleGoods rand0 { gender := some "men" } =
      getGoodsList sampleGoods rand1 { gender := some "men" } :=
  non_top_deterministic sampleGoods { gender := some "men" } rand0 rand1 (by decide)

/-! ### Claim C2: category without gender -/

/-- C2 (amended): when category is truthy, gender is falsy and top is falsy,
getGoodsList fails with the 403 error whose payload message is
"Not gender params", for any other parameters (search or list included). -/
theorem category_without_gender_403 (goods : List Item)
    (rand : (i : Nat) → Fin (i + 1)) (params : Params)
    (hc : truthy params.category = true) (hg : truthy params.gender = false)
    (ht : truthy params.top = false) :
    getGoodsList goods rand params = Except.error ⟨403, "Not gender params"⟩ := by
  simp only [getGoodsList, hc, hg, ht, Bool.false_eq_true, if_false, if_true]

/-- Witness for the amended C2 at a concrete catalog and params. -/
theorem category_without_gender_403_witness :
    getGoodsList sampleGoods rand0 { category := some "dress", search := some "shirt" } =
      Except.error ⟨403, "Not gender params"⟩ :=
  category_without_gender_403 sampleGoods rand0
    { category := some "dress", search := some "shirt" } (by decide) (by decide) (by decide)

/-- Counterexample to C2 as stated: with category present ("dress") and gender
absent, but top also present, getGoodsList does not fail with the 403 error —
the top branch returns first. -/
theorem category_without_gender_top_counterexample :
    getGoodsList sampleGoods rand0 { top := some "men", category := some "dress" } ≠
      Except.error ⟨403, "Not gender params"⟩ := by
  decide

/-! ### Claim C5: the top branch with at least eight matches -/

/-- C5: when top is given, getGoodsList bypasses pagination and returns the
catalog items with a truthy top flag and gender equal to params.top, shuffled
and truncated to exactly 8 entries; when at least 8 items match, the result
has exactly 8 elements, each drawn from the matching set. -/
theorem top_returns_eight (goods : List Item) (rand : (i : Nat) → Fin (i + 1))
    (params : Params) (ht : truthy params.top = true)
    (h8 : 8 ≤ (goods.filter (topPred (params.top.getD ""))).length) :
    getGoodsList goods rand params =
      Except.ok (GoodsResult.top (jsSetLength 8
        (shuffle rand (goods.filter (topPred (params.top.getD "")))))) ∧
    (jsSetLength 8 (shuffle rand (goods.filter (topPred (params.top.getD ""))))).length = 8 ∧
    ∀ o ∈ jsSetLength 8 (shuffle rand (goods.filter (topPred (params.top.getD "")))),
      ∃ y, o = some y ∧ y ∈ goods.filter (topPred (params.top.getD "")) := by
  refine ⟨by simp only [getGoodsList, ht, if_true], jsSetLength_length _ _, ?_⟩
  intro o ho
  have hlen : (shuffle rand (goods.filter (topPred (params.top.getD "")))).length =
      (goods.filter (topPred (params.top.getD ""))).length :=
    shuffle_length rand _
  rw [jsSetLength_of_le 8 _ (by rw [hlen]; exact h8)] at ho
  rcases List.mem_map.mp ho with ⟨y, hy, rfl⟩
  exact ⟨y, rfl, (shuffle_perm rand _).mem_iff.mp (List.take_subset 8 _ hy)⟩

/-- Witness for C5 at a nine-item catalog in which all items match. -/
theorem top_returns_eight_witness :
    getGoodsList manyTop rand0 { top := some "men" } =
      Except.ok (GoodsResult.top (jsSetLength 8
        (shuffle rand0 (manyTop.filter (topPred ((Params.top { top := some "men" }).getD "")))))) ∧
    (jsSetLength 8 (shuffle rand0
      (manyTop.filter (topPred ((Params.top { top := some "men" }).getD ""))))).length = 8 ∧
    ∀ o ∈ jsSetLength 8 (shuffle rand0
        (manyTop.filter (topPred ((Params.top { top := some "men" }).getD "")))),
      ∃ y, o = some y ∧ y ∈ manyTop.filter (topPred ((Params.top { top := some "men" }).getD "")) :=
  top_returns_eight manyTop rand0 { top := some "men" } (by decide) (by decide)

/-! ### Claim C9: the top branch with fewer than eight matches -/

/-- C9: when top is given and fewer than 8 catalog items match the top filter,
getGoodsList does not fail: it returns a sequence of length exactly 8 whose
positions past the number of matching items are all holes (JS empty slots,
serialized as null). -/
theorem top_fewer_than_eight_nulls (goods : List Item) (rand : (i : Nat) → Fin (i + 1))
    (params : Params) (ht : truthy params.top = true)
    (hlt : (goods.filter (topPred (params.top.getD ""))).length < 8) :
    ∃ r, getGoodsList goods rand params = Except.ok (GoodsResult.top r) ∧
      r.length = 8 ∧
      r.drop (goods.filter (topPred (params.top.getD ""))).length =
        List.replicate (8 - (goods.filter (topPred (params.top.getD ""))).length) none := by
  refine ⟨jsSetLength 8 (shuffle rand (goods.filter (topPred (params.top.getD "")))),
    by simp only [getGoodsList, ht, if_true], jsSetLength_length _ _, ?_⟩
  have hlen : (shuffle rand (goods.filter (topPred (params.top.getD "")))).length =
      (goods.filter (topPred (params.top.getD ""))).length :=
    shuffle_length rand _
  rw [jsSetLength_of_lt 8 _ (by rw [hlen]; exact hlt), hlen]
  have hmap : (goods.filter (topPred (params.top.getD ""))).length =
      ((shuffle rand (goods.filter (topPred (params.top.getD "")))).map some).length := by
    rw [List.length_map, hlen]
  rw [hmap, List.drop_left]

/-- Witness for C9 at a catalog with exactly two matching top items. -/
theorem top_fewer_than_eight_nulls_witness :
    ∃ r, getGoodsList sampleGoods rand0 { top := some "men" } =
        Except.ok (GoodsResult.top r) ∧
      r.length = 8 ∧
      r.drop (sampleGoods.filter
          (topPred ((Params.top { top := some "men" }).getD ""))).length =
        List.replicate
          (8 - (sampleGoods.filter
            (topPred ((Params.top { top := some "men" }).getD ""))).length) none :=
  top_fewer_than_eight_nulls sampleGoods rand0 { top := some "men" } (by decide) (by decide)

/-! ### Claim C3: the search branch -/

/-- C3 (amended): when search is truthy, top and list are falsy, and the 403
guard does not fire (category falsy or gender truthy), getGoodsList discards
the gender/category/type narrowing and paginates the items of the original
catalog whose lowercased title or description contains the trimmed, lowercased
search string. -/
theorem search_overrides_filters (goods : List Item) (rand : (i : Nat) → Fin (i + 1))
    (params : Params) (hs : truthy params.search = true)
    (ht : truthy params.top = false) (hl : truthy params.list = false)
    (hcg : truthy params.category = false ∨ truthy params.gender = true) :
    getGoodsList goods rand params = Except.ok (GoodsResult.paged (pagination
      (goods.filter (searchPred (jsToLowerCase (jsTrim (params.search.getD "")))))
      (jsPage params.page) (jsCount params.count))) := by
  rcases hcg with h | h
  · simp only [getGoodsList, hs, ht, hl, h, Bool.false_eq_true, if_false, if_true]
  · by_cases hc : truthy params.category = true
    · simp only [getGoodsList, hs, ht, hl, h, hc, Bool.false_eq_true, if_false, if_true]
    · simp only [Bool.not_eq_true] at hc
      simp only [getGoodsList, hs, ht, hl, h, hc, Bool.false_eq_true, if_false, if_true]

/-- Witness for the amended C3: a search that ignores a gender narrowing. -/
theorem search_overrides_filters_witness :
    getGoodsList sampleGoods rand0 { gender := some "men", search := some "shirt" } =
      Except.ok (GoodsResult.paged (pagination
        (sampleGoods.filter (searchPred (jsToLowerCase (jsTrim
          ((Params.search { gender := some "men", search := some "shirt" }).getD "")))))
        (jsPage (Params.page { gender := some "men", search := some "shirt" }))
        (jsCount (Params.count { gender := some "men", search := some "shirt" })))) :=
  search_overrides_filters sampleGoods rand0
    { gender := some "men", search := some "shirt" }
    (by decide) (by decide) (by decide) (Or.inl (by decide))

/-- Counterexample to C3 as stated: with search present and top absent but
list also present, getGoodsList takes the list branch, not the paginated
search result the claim requires. -/
theorem search_claim_counterexample :
    getGoodsList sampleGoods rand0 { search := some "shirt", list := some "9" } ≠
      Except.ok (GoodsResult.paged (pagination
        (sampleGoods.filter (searchPred (jsToLowerCase (jsTrim "shirt"))))
        (jsPage none) (jsCount none))) := by
  decide

/-! ### Claim C4: the list branch -/

/-- C4 (amended): when list is truthy, top is falsy and the 403 guard does not
fire (category falsy or gender truthy), getGoodsList returns — bypassing
pagination and the gender/category/type/search filters — exactly the items of
the original catalog whose id is a substring of the trimmed, lowercased list
string. -/
theorem list_returns_by_id (goods : List Item) (rand : (i : Nat) → Fin (i + 1))
    (params : Params) (hl : truthy params.list = true)
    (ht : truthy params.top = false)
    (hcg : truthy params.category = false ∨ truthy params.gender = true) :
    getGoodsList goods rand params = Except.ok (GoodsResult.raw
      (goods.filter (listPred (jsToLowerCase (jsTrim (params.list.getD "")))))) := by
  rcases hcg with h | h
  · simp only [getGoodsList, hl, ht, h, Bool.false_eq_true, if_false, if_true]
  · by_cases hc : truthy params.category = true
    · simp only [getGoodsList, hl, ht, h, hc, Bool.false_eq_true, if_false, if_true]
    · simp only [Bool.not_eq_true] at hc
      simp only [getGoodsList, hl, ht, h, hc, Bool.false_eq_true, if_false, if_true]

/-- Witness for the amended C4: ids 1 and 3 are substrings of the list string
"13", id 2 is not; search is ignored. -/
theorem list_returns_by_id_witness :
    getGoodsList sampleGoods rand0 { search := some "shirt", list := some "13" } =
      Except.ok (GoodsResult.raw
        (sampleGoods.filter (listPred (jsToLowerCase (jsTrim
          ((Params.list { search := some "shirt", list := some "13" }).getD "")))))) :=
  list_returns_by_id sampleGoods rand0 { search := some "shirt", list := some "13" }
    (by decide) (by decide) (Or.inl (by decide))

/-- Counterexample to C4 as stated: with list present and top absent but
category present and gender absent, getGoodsList throws the 403 error instead
of returning the id-filtered items. -/
theorem list_claim_counterexample :
    getGoodsList sampleGoods rand0 { category := some "x", list := some "1" } ≠
      Except.ok (GoodsResult.raw
        (sampleGoods.filter (listPred (jsToLowerCase (jsTrim "1"))))) := by
  decide

/-! ### Claim C6: lookup by id -/

/-- C6: on a catalog with unique identifiers, getItems returns the exact item
whose id equals the requested one when such an item exists, and fails with
the 404 error whose payload message is "Item Not Found" when none does. -/
theorem getItems_found_or_404 (goods : List Item) (itemId : String)
    (huniq : ∀ x ∈ goods, ∀ y ∈ goods, x.id = y.id → x = y) :
    (∀ x ∈ goods, x.id = itemId → getItems goods itemId = Except.ok x) ∧
    ((∀ x ∈ goods, x.id ≠ itemId) →
      getItems goods itemId = Except.error ⟨404, "Item Not Found"⟩) := by
  constructor
  · intro x hx hxid
    unfold getItems
    cases hfind : goods.find? (fun item => item.id == itemId) with
    | none =>
      exfalso
      have := List.find?_eq_none.mp hfind x hx
      simp [hxid] at this
    | some y =>
      have hy : y.id = itemId := by simpa using List.find?_some hfind
      have hmem : y ∈ goods := List.mem_of_find?_eq_some hfind
      have : x = y := huniq x hx y hmem (by rw [hxid, hy])
      rw [this]
  · intro hnone
    unfold getItems
    cases hfind : goods.find? (fun item => item.id == itemId) with
    | none => rfl
    | some y =>
      exfalso
      exact hnone y (List.mem_of_find?_eq_some hfind) (by simpa using List.find?_some hfind)

/-- Witness for C6 on the three-item sample catalog: id 2 is found exactly,
id 9 yields the 404 error. -/
theorem getItems_found_or_404_witness :
    getItems sampleGoods "2" = Except.ok itmB ∧
    getItems sampleGoods "9" = Except.error ⟨404, "Item Not Found"⟩ :=
  ⟨(getItems_found_or_404 sampleGoods "2" (by decide)).1 itmB (by decide) (by decide),
   (getItems_found_or_404 sampleGoods "9" (by decide)).2 (by decide)⟩

/-! ### Facts about `jsSlice` and `pagination` -/

/-- Taking up to the clamped length is taking. -/
theorem take_min_self {α : Type} (l : List α) (n : Nat) :
    l.take (min n l.length) = l.take n := by
  rcases le_total n l.length with h | h
  · rw [min_eq_left h]
  · rw [min_eq_right h, List.take_length, List.take_of_length_le h]

/-- Dropping a clamped index from a short enough list is dropping. -/
theorem drop_min_of_le {α : Type} (X : List α) (s len : Nat) (h : X.length ≤ len) :
    X.drop (min s len) = X.drop s := by
  rcases le_total s len with hs | hs
  · rw [min_eq_left hs]
  · rw [min_eq_right hs, List.drop_eq_nil_of_le h, List.drop_eq_nil_of_le (le_trans h hs)]

/-- On nonnegative boundaries, the JS slice is plain take-then-drop. -/
theorem jsSlice_nonneg {α : Type} (l : List α) (s e : Int) (hs : 0 ≤ s) (he : 0 ≤ e) :
    jsSlice l s e = (l.take e.toNat).drop s.toNat := by
  unfold jsSlice jsSliceIdx
  rw [if_neg (by omega), if_neg (by omega), take_min_self]
  exact drop_min_of_le _ _ _ (by rw [List.length_take]; exact min_le_right _ _)

/-- The goods slice of page `i + 1` (1-based) at a natural page size `c` is
the chunk of the data from index `c * i` to `c * (i + 1)`. -/
theorem pagination_goods_nat (data : List Item) (c : Nat) (i : Nat) :
    (pagination data ((i : Int) + 1) (c : Int)).goods =
      (data.take (c * (i + 1))).drop (c * i) := by
  simp only [pagination]
  have hrwE : ((c : Int) * ((i : Int) + 1)) = ((c * (i + 1) : Nat) : Int) := by
    push_cast; ring
  have hrwS : ((c : Int) * ((i : Int) + 1) - c) = ((c * i : Nat) : Int) := by
    push_cast; ring
  by_cases h1 : ((i : Int) + 1) = 1
  · have hi0 : i = 0 := by exact_mod_cast (by omega : (i : Int) = 0)
    rw [if_pos h1, jsSlice_nonneg _ _ _ le_rfl (by rw [hrwE]; positivity)]
    rw [hrwE, Int.toNat_ofNat, hi0]
    norm_num
  · rw [if_neg h1, jsSlice_nonneg _ _ _ (by rw [hrwS]; positivity) (by rw [hrwE]; positivity)]
    rw [hrwS, hrwE, Int.toNat_ofNat, Int.toNat_ofNat]

/-- Concatenating the first `m` chunks of size `c` gives the first `c * m`
elements. -/
theorem join_chunks {α : Type} (l : List α) (c : Nat) :
    ∀ m : Nat, ((List.range m).map (fun i => (l.take (c * (i + 1))).drop (c * i))).flatten
      = l.take (c * m) := by
  intro m
  induction m with
  | zero => simp
  | succ m ih =>
    rw [List.range_succ, List.map_append, List.flatten_append, ih]
    simp only [List.map_cons, List.map_nil, List.flatten_cons, List.flatten_nil,
      List.append_nil]
    rw [List.drop_take]
    have h1 : c * (m + 1) - c * m = c := by rw [Nat.mul_succ]; omega
    rw [h1, Nat.mul_succ, List.take_add]

/-- The ceiling page count covers the whole list: `len ≤ c * ⌈len / c⌉`. -/
theorem le_mul_ceil (len c : Nat) (hc : 0 < c) : len ≤ c * ((len + c - 1) / c) := by
  have h := Nat.div_add_mod (len + c - 1) c
  have hmod : (len + c - 1) % c < c := Nat.mod_lt _ hc
  generalize hq : (len + c - 1) / c = q at h
  generalize hr : (len + c - 1) % c = r at h hmod
  generalize hT : c * q = T at h ⊢
  omega

/-- The pages field at a natural page size is the natural ceiling division. -/
theorem pagination_pages_nat (data : List Item) (c : Nat) (hc : 0 < c) (page : Int) :
    (pagination data page (c : Int)).pages = (((data.length + c - 1) / c : Nat) : Int) := by
  simp only [pagination]
  rw [if_pos (by exact_mod_cast hc)]
  have hcast : ((data.length : Int) + c - 1) = ((data.length + c - 1 : Nat) : Int) := by
    rw [Nat.cast_sub (by omega)]
    push_cast
    ring
  rw [hcast, Int.ofNat_ediv]

/-- A page never holds more than `count` items. -/
theorem pagination_goods_length_le (data : List Item) (page count : Int)
    (hp : 1 ≤ page) (hc : 0 < count) :
    ((pagination data page count).goods.length : Int) ≤ count := by
  simp only [pagination, jsSlice, jsSliceIdx]
  have ht : count ≤ count * page := by
    calc count = count * 1 := (mul_one count).symm
      _ ≤ count * page := mul_le_mul_of_nonneg_left hp hc.le
  generalize hT : count * page = T at ht
  by_cases h1 : page = 1
  · rw [if_pos h1]
    have hTc : count = T := by rw [← hT, h1, mul_one]
    rw [if_neg (show ¬(T < 0) by omega), if_neg (show ¬((0 : Int) < 0) by omega)]
    simp only [List.length_drop, List.length_take]
    omega
  · rw [if_neg h1]
    rw [if_neg (show ¬(T < 0) by omega), if_neg (show ¬(T - count < 0) by omega)]
    simp only [List.length_drop, List.length_take]
    omega

/-! ### Claim C1: pagination covers the filtered sequence exactly -/

/-- C1: for every filtered item sequence and all valid page ≥ 1 and
count > 0, the paginated result has at most count items, the pages field is
the ceiling of totalCount / count, and concatenating the goods of pages 1
through pages reproduces the full sequence — no duplicates, no omissions, in
the original order. -/
theorem pagination_bounds_and_cover (data : List Item) (page count : Int)
    (hp : 1 ≤ page) (hc : 0 < count) :
    ((pagination data page count).goods.length : Int) ≤ count ∧
    (pagination data page count).pages = ((data.length : Int) + count - 1) / count ∧
    ((List.range (pagination data page count).pages.toNat).map
      (fun (i : Nat) => (pagination data ((i : Int) + 1) count).goods)).flatten = data := by
  obtain ⟨c, rfl⟩ := Int.eq_ofNat_of_zero_le hc.le
  have hcn : 0 < c := by exact_mod_cast hc
  have hcast : ((data.length : Int) + c - 1) = ((data.length + c - 1 : Nat) : Int) := by
    rw [Nat.cast_sub (by omega)]
    push_cast
    ring
  refine ⟨pagination_goods_length_le data page c hp hc, ?_, ?_⟩
  · rw [pagination_pages_nat data c hcn page, hcast, Int.ofNat_ediv]
  · rw [pagination_pages_nat data c hcn page, Int.toNat_ofNat]
    rw [List.map_congr_left (fun i _ => pagination_goods_nat data c i)]
    rw [join_chunks]
    exact List.take_of_length_le (le_mul_ceil data.length c hcn)

/-- Witness for C1 on the three-item catalog with page 2 of size 2. -/
theorem pagination_bounds_and_cover_witness :
    ((pagination sampleGoods 2 2).goods.length : Int) ≤ 2 ∧
    (pagination sampleGoods 2 2).pages = ((sampleGoods.length : Int) + 2 - 1) / 2 ∧
    ((List.range (pagination sampleGoods 2 2).pages.toNat).map
      (fun (i : Nat) => (pagination sampleGoods ((i : Int) + 1) 2).goods)).flatten = sampleGoods :=
  pagination_bounds_and_cover sampleGoods 2 2 (by decide) (by decide)

/-! ### Claim C8: out-of-range pages -/

/-- C8 (amended): for every sequence and positive page size, any page p ≥ 1
past the data — (p - 1) * count ≥ totalCount — yields an empty goods slice
and never an error; a negative page, however, is resolved by the JS negative
slice indexing and can return items (see the counterexample). -/
theorem out_of_range_page_empty (data : List Item) (page count : Int)
    (hp : 1 ≤ page) (hc : 0 < count)
    (hout : (data.length : Int) ≤ (page - 1) * count) :
    (pagination data page count).goods = [] := by
  simp only [pagination, jsSlice, jsSliceIdx]
  have hrw : (page - 1) * count = count * page - count := by ring
  rw [hrw] at hout
  by_cases h1 : page = 1
  · have hlen : data.length = 0 := by
      rw [h1, mul_one] at hout
      omega
    have hdata : data = [] := List.length_eq_zero.mp hlen
    rw [hdata]
    simp
  · rw [if_neg h1]
    generalize hT : count * page = T at hout
    rw [if_neg (show ¬(T < 0) by omega), if_neg (show ¬(T - count < 0) by omega)]
    apply List.drop_eq_nil_of_le
    rw [List.length_take]
    omega

/-- Witness for the amended C8: page 5 of size 2 on three items is empty. -/
theorem out_of_range_page_empty_witness :
    (pagination sampleGoods 5 2).goods = [] :=
  out_of_range_page_empty sampleGoods 5 2 (by decide) (by decide) (by decide)

/-- Counterexample to C8 as stated: the out-of-range page -1 with page size 1
on a three-item sequence returns a nonempty slice (JS slice resolves the
negative start and end indices from the end of the array), not the empty
one the claim requires. -/
theorem negative_page_counterexample :
    (pagination sampleGoods (-1) 1).goods ≠ [] := by
  decide

/-! ### The HTTP request handler (the `createServer` callback) -/

/-- The loaded dataset `db.json`: the goods list plus the categories and
colors reference lists, returned verbatim (their entries are opaque to the
routing logic and modelled as strings). -/
structure Db where
  goods : List Item
  categories : List String
  colors : List String
deriving Repr

/-- The response bodies the handler can serialize: the empty OPTIONS reply,
the `undefined` body of a non-GET request, the two verbatim reference lists,
a message payload object, and the two handler results. -/
inductive Body where
  | empty
  | undef
  | jsonCategories (cs : List String)
  | jsonColors (cs : List String)
  | message (s : String)
  | goodsList (g : GoodsResult)
  | item (it : Item)
deriving DecidableEq, Repr

/-- The observable outcome of one request: the image-file streaming branch
(file I/O is outside the model), a status code with a body, or an exception
that escaped the try/catch — in which case no response is ever written and
the request stays unanswered. -/
inductive Outcome where
  | imageStream
  | response (status : Nat) (body : Body)
  | unhandled
deriving DecidableEq, Repr

/-- Value of a hexadecimal digit character. -/
def hexVal (c : Char) : Option Nat :=
  if '0' ≤ c ∧ c ≤ '9' then some (c.toNat - '0'.toNat)
  else if 'a' ≤ c ∧ c ≤ 'f' then some (c.toNat - 'a'.toNat + 10)
  else if 'A' ≤ c ∧ c ≤ 'F' then some (c.toNat - 'A'.toNat + 10)
  else none

/-- Percent-decoding `decodeURIComponent`, modelled at the byte level: every
`%` must be followed by two hex digits or a `URIError` is thrown (the
`Except.error`).  Decoded bytes are mapped to characters directly; multi-byte
UTF-8 recomposition — and the `URIError` thrown on an invalid UTF-8 byte
sequence — are not modelled: the claims depend only on the failure of
malformed escapes. -/
def pctDecode : List Char → Except Unit (List Char)
  | [] => Except.ok []
  | '%' :: rest =>
    match rest with
    | c1 :: c2 :: rest2 =>
      match hexVal c1, hexVal c2 with
      | some h, some lo => (pctDecode rest2).map (fun t => Char.ofNat (16 * h + lo) :: t)
      | _, _ => Except.error ()
    | _ => Except.error ()
  | c :: rest => (pctDecode rest).map (fun t => c :: t)

/-- One piece of the query loop: `piece.split("=")` keeps the first two
components as key and value (so `a=b=c` keeps only `b`); a truthy value is
percent-decoded, otherwise the empty string is stored. -/
def parsePiece (piece : List Char) : Except Unit (String × String) :=
  let parts := piece.splitOn '='
  let key := (parts.headD []).asString
  match parts.get? 1 with
  | some v =>
    if v = [] then Except.ok (key, "")
    else (pctDecode v).map (fun d => (key, d.asString))
  | none => Except.ok (key, "")

/-- The query-string loop: split on `&` and process the pieces in order,
aborting at the first piece whose value fails to decode (the JS loop throws
there). -/
def parseQuery (q : List Char) : Except Unit (List (String × String)) :=
  (q.splitOn '&').mapM parsePiece

/-- Lookup in the `queryParams` object: later assignments to the same key
overwrite earlier ones, so the last binding wins; an absent key reads as
`undefined`. -/
def lookupLast (ps : List (String × String)) (k : String) : Option String :=
  (ps.reverse.find? (fun p => p.1 == k)).map (fun p => p.2)

/-- The `Params` view of the parsed `queryParams` object. -/
def paramsOf (ps : List (String × String)) : Params :=
  { top := lookupLast ps "top", gender := lookupLast ps "gender",
    category := lookupLast ps "category", type := lookupLast ps "type",
    search := lookupLast ps "search", list := lookupLast ps "list",
    page := lookupLast ps "page", count := lookupLast ps "count" }

/-- JS `s.substring(a, b)` for `a ≤ b`: the characters in `[a, b)`. -/
def jsSubstring (s : String) (a b : Nat) : String :=
  ((s.toList.take b).drop a).asString

/-- The API route `URI_PREFIX = "/api/goods"`. -/
def apiGoodsPath : String := "/api/goods"

/-- Splitting of the de-prefixed request url into route and query string plus
the parsing of the query — the code between `split("?")` and the `try` block.
In the server this runs before the `try`, so its decoding error is never
caught. -/
def routeQuery (url : String) : Except Unit (List Char × List (String × String)) :=
  let parts := (url.toList.drop apiGoodsPath.length).splitOn '?'
  let uri := parts.headD []
  match parts.get? 1 with
  | some q =>
    if q = [] then Except.ok (uri, [])
    else (parseQuery q).map (fun ps => (uri, ps))
  | none => Except.ok (uri, [])

/-- The `createServer` request callback: the image passthrough, the OPTIONS
preflight, the categories/colors markers, the prefix 404, then query parsing
(outside the try/catch) and the guarded dispatch to `getGoodsList` or
`getItems`, with `ApiError`s mapped to their status code and payload.  In the
model the only failure outside `ApiError` is the query-decoding error, which
escapes the try/catch and yields `Outcome.unhandled`. -/
def handleRequest (db : Db) (rand : (i : Nat) → Fin (i + 1)) (method url : String) :
    Outcome :=
  if jsSubstring url 1 4 = "img" then Outcome.imageStream
  else if method = "OPTIONS" then Outcome.response 200 Body.empty
  else if strIncludes url "/api/categories" then
    Outcome.response 200 (Body.jsonCategories db.categories)
  else if strIncludes url "/api/colors" then
    Outcome.response 200 (Body.jsonColors db.colors)
  else if ¬ (strStartsWith url apiGoodsPath = true) then
    Outcome.response 404 (Body.message "Not Found")
  else
    match routeQuery url with
    | Except.error _ => Outcome.unhandled
    | Except.ok (uri, ps) =>
      let queryParams := paramsOf ps
      let idPart := (uri.drop 1).asString
      let result : Except ApiError Body :=
        if method ≠ "GET" then Except.ok Body.undef
        else if uri = [] ∨ uri = ['/'] then
          (getGoodsList db.goods rand queryParams).map Body.goodsList
        else (getItems db.goods idPart).map Body.item
      match result with
      | Except.ok b => Outcome.response 200 b
      | Except.error e => Outcome.response e.statusCode (Body.message e.message)

/-- An empty dataset, used to instantiate handler theorems. -/
def emptyDb : Db := ⟨[], [], []⟩

/-! ### Claim C7: unexpected errors and the 500 response -/

/-- C7 (amended): an error raised while decoding the query string of a goods
route request is thrown before the try/catch: it escapes the handler and
leaves the request unanswered — it is not collapsed to the 500 Server Error
response. -/
theorem decode_error_unanswered (db : Db) (rand : (i : Nat) → Fin (i + 1)) (url : String)
    (h1 : ¬ (jsSubstring url 1 4 = "img"))
    (h2 : strIncludes url "/api/categories" = false)
    (h3 : strIncludes url "/api/colors" = false)
    (h4 : strStartsWith url apiGoodsPath = true)
    (h5 : routeQuery url = Except.error ()) :
    handleRequest db rand "GET" url = Outcome.unhandled := by
  simp only [handleRequest, h1, h2, h3, h4, h5, if_false, if_true,
    Bool.false_eq_true, not_true, String.reduceEq, reduceIte]

/-- Witness for the amended C7: a malformed percent escape in the search
parameter leaves the request unanswered. -/
theorem decode_error_unanswered_witness :
    handleRequest emptyDb rand0 "GET" "/api/goods?search=%" = Outcome.unhandled :=
  decode_error_unanswered emptyDb rand0 "/api/goods?search=%"
    (by decide) (by decide) (by decide) (by decide) (by decide)

/-- Counterexample to C7 as stated: the malformed percent-encoding in
`/api/goods?search=%` produces no response at all (the URIError is thrown
before the try/catch), instead of the HTTP 500 Server Error response the
claim requires. -/
theorem server_error_claim_counterexample :
    handleRequest emptyDb rand0 "GET" "/api/goods?search=%" = Outcome.unhandled ∧
    Outcome.unhandled ≠ Outcome.response 500 (Body.message "Server Error") := by
  exact ⟨by decide, by decide⟩
